import Mathlib

/-!
Verification of the channel-request codec (`src/message/channel_request.go`).

The Go source is shallowly embedded: byte buffers and Go strings become `List Nat`
(each element a byte value), `uint64` fields become `Nat`, readers become explicit
stream passing over `List Nat`, and Go's `(value, error)` multi-returns become
either `Except CodecErr` (for parsers) or a `Nat × List Nat × Option CodecErr`
triple `(consumed, buffer after the call, error)` (for the `Write` methods, whose
caller-visible effect is the mutated buffer together with the consumed count).

The helper package `ssh3/src/util` and the constant `SSH_MSG_CHANNEL_REQUEST` are
not part of the provided source tree; those primitives are modelled from the spec
(sections 4.1 and 6) and are marked `Modelled from the spec:` below.
-/

deriving instance DecidableEq for Except

namespace Ssh3

/-- Bytes of an ASCII string literal (used for the request-type tags, which are
all ASCII, so code points coincide with UTF-8 bytes). -/
def ascii (s : String) : List Nat := s.data.map Char.toNat

/-- Error values surfaced by the codec. Go errors are collapsed to their meaning:
io/EOF style read failures become `truncated`, the buffer-too-small encode errors
become `bufferTooSmall`, the envelope's "invalid request message type" error
becomes `unsupportedRequestType`, and the literal `bufio.ErrAdvanceTooFar` value
that several payload parsers substitute for their string-parse errors is kept as
the distinct value `advanceTooFar`. -/
inductive CodecErr where
  | truncated
  | bufferTooSmall
  | unsupportedRequestType (tag : List Nat)
  | advanceTooFar
deriving DecidableEq, Repr

/-- Big-endian value of a byte list. -/
def beVal (l : List Nat) : Nat := l.foldl (fun acc b => acc * 2 ^ 8 + b) 0

/-- The 4-byte big-endian encoding of a 32-bit value (binary.BigEndian.PutUint32). -/
def u32be (n : Nat) : List Nat :=
  [n / 2 ^ 24 % 2 ^ 8, n / 2 ^ 16 % 2 ^ 8, n / 2 ^ 8 % 2 ^ 8, n % 2 ^ 8]

/-- Read exactly `n` bytes from the stream, failing with `truncated` when fewer
are available. -/
def readBytes (n : Nat) (data : List Nat) : Except CodecErr (List Nat × List Nat) :=
  if n ≤ data.length then .ok (data.take n, data.drop n) else .error .truncated

/-- Overwrite `buf` starting at offset `off` with the bytes of `src`, never
growing `buf` (the semantics of Go's `copy(buf[off:], src)` on the backing
array). -/
def copyInto : List Nat → Nat → List Nat → List Nat
  | [], _, _ => []
  | b :: bs, 0, [] => b :: bs
  | _ :: bs, 0, s :: ss => s :: copyInto bs 0 ss
  | b :: bs, n + 1, src => b :: copyInto bs n src

/-- Go's `copy(buf[off:], src)`: the pair of the copied-byte count
`min (len src) (len buf - off)` and the updated buffer. -/
def goCopy (buf : List Nat) (off : Nat) (src : List Nat) : Nat × List Nat :=
  (min src.length (buf.length - off), copyInto buf off src)

/-- Modelled from the spec: `util.SSHStringLen`, the wire size of a
length-prefixed byte string — a 4-byte big-endian length plus the raw bytes. -/
def SSHStringLen (s : List Nat) : Nat := 4 + s.length

/-- The wire bytes of a length-prefixed string: 4-byte big-endian length, then
the raw bytes. -/
def sshStringBytes (s : List Nat) : List Nat := u32be s.length ++ s

/-- Modelled from the spec: `util.ParseSSHString` reads a 4-byte big-endian
length and then that many raw bytes, failing with `truncated` when the stream
is too short. -/
def ParseSSHString (data : List Nat) : Except CodecErr (List Nat × List Nat) :=
  match readBytes 4 data with
  | .error e => .error e
  | .ok (lenBytes, rest) =>
    match readBytes (beVal lenBytes) rest with
    | .error e => .error e
    | .ok (s, rest) => .ok (s, rest)

/-- Modelled from the spec: `util.WriteSSHString` writes the 4-byte big-endian
length followed by the raw bytes. The Go call sites pass the slice `buf[off:]`
of a shared backing array, modelled here by the explicit offset `off`; the
function fails with a buffer-too-small error when fewer than `4 + len s` bytes
remain past `off`, and otherwise returns the count `4 + len s`. -/
def WriteSSHString (buf : List Nat) (off : Nat) (s : List Nat) :
    Nat × List Nat × Option CodecErr :=
  if buf.length - off < 4 + s.length then (0, buf, some .bufferTooSmall)
  else (4 + s.length, copyInto buf off (sshStringBytes s), none)

/-- Modelled from the spec: `util.VarIntLen`, the byte width class (1, 2, 4 or 8)
of the variable-length integer encoding, chosen by magnitude over the ranges
[0, 2^6), [2^6, 2^14), [2^14, 2^30), [2^30, 2^62). -/
def VarIntLen (v : Nat) : Nat :=
  if v < 2 ^ 6 then 1
  else if v < 2 ^ 14 then 2
  else if v < 2 ^ 30 then 4
  else 8

/-- Modelled from the spec: `util.AppendVarInt` appends the variable-length
integer encoding of `v` to `buf` and returns the grown slice (the caller must
use the returned value, exactly like Go's built-in `append`). The two high bits
of the first byte select the width class; the value is stored big-endian in the
remaining 6, 14, 30 or 62 bits. -/
def AppendVarInt (buf : List Nat) (v : Nat) : List Nat :=
  buf ++
    (if v < 2 ^ 6 then [v]
     else if v < 2 ^ 14 then [2 ^ 6 + v / 2 ^ 8, v % 2 ^ 8]
     else if v < 2 ^ 30 then
       [2 ^ 7 + v / 2 ^ 24, v / 2 ^ 16 % 2 ^ 8, v / 2 ^ 8 % 2 ^ 8, v % 2 ^ 8]
     else
       [3 * 2 ^ 6 + v / 2 ^ 56 % 2 ^ 6, v / 2 ^ 48 % 2 ^ 8, v / 2 ^ 40 % 2 ^ 8,
        v / 2 ^ 32 % 2 ^ 8, v / 2 ^ 24 % 2 ^ 8, v / 2 ^ 16 % 2 ^ 8,
        v / 2 ^ 8 % 2 ^ 8, v % 2 ^ 8])

/-- Modelled from the spec: `util.ReadVarInt` reads the first byte, takes its two
high bits as the width class (1, 2, 4 or 8 bytes in total) and accumulates the
remaining bits big-endian, failing with `truncated` on a short stream. -/
def ReadVarInt (data : List Nat) : Except CodecErr (Nat × List Nat) :=
  match data with
  | [] => .error .truncated
  | b :: rest =>
    match readBytes (2 ^ (b / 2 ^ 6) - 1) rest with
    | .error e => .error e
    | .ok (more, rest) =>
      .ok (more.foldl (fun acc x => acc * 2 ^ 8 + x) (b % 2 ^ 6), rest)

/-- Embeds `binary.Read(buf, binary.BigEndian, &b)` for a `*bool` target: Go's
encoding/binary reads exactly one byte and stores `b[0] != 0`, so every nonzero
byte is stored as `true`. -/
def readBool (data : List Nat) : Except CodecErr (Bool × List Nat) :=
  match data with
  | [] => .error .truncated
  | b :: rest => .ok (b != 0, rest)

/-- Embeds the `attrs` accumulation loop shared by `PtyRequest.Write` and
`WindowChangeRequest.Write`: each iteration of the Go loop evaluates
`util.AppendVarInt(attrs, attr)` but discards the returned slice, so `attrs`
still holds its initial value after the loop. -/
def discardedVarIntAttrs (attrs0 : List Nat) (vals : List Nat) : List Nat :=
  vals.foldl (fun attrs attr => (fun _ => attrs) (AppendVarInt attrs attr)) attrs0

/-- Modelled from the spec: the channel-request message-type byte, value 98 per
the host protocol's message-type table (section 6); the defining constant lives
outside the provided source tree. -/
def SSH_MSG_CHANNEL_REQUEST : Nat := 98

structure PtyRequest where
  Term : List Nat
  CharWidth : Nat
  CharHeight : Nat
  PixelWidth : Nat
  PixelHeight : Nat
  EncodedTerminalModes : List Nat
deriving DecidableEq, Repr

structure X11Request where
  SingleConnection : Bool
  X11AuthenticationProtocol : List Nat
  X11AuthenticationCookie : List Nat
  X11ScreenNumber : Nat
deriving DecidableEq, Repr

structure ShellRequest where
deriving DecidableEq, Repr

structure ExecRequest where
  Command : List Nat
deriving DecidableEq, Repr

structure SubsystemRequest where
  SubsystemName : List Nat
deriving DecidableEq, Repr

structure WindowChangeRequest where
  CharWidth : Nat
  CharHeight : Nat
  PixelWidth : Nat
  PixelHeight : Nat
deriving DecidableEq, Repr

structure SignalRequest where
  SignalNameWithoutSig : List Nat
deriving DecidableEq, Repr

structure ExitStatusRequest where
  exitStatus : Nat
deriving DecidableEq, Repr

structure ExitSignalRequest where
  SignalNameWithoutSig : List Nat
  CoreDumped : Bool
  ErrorMessageUTF8 : List Nat
  LanguageTag : List Nat
deriving DecidableEq, Repr

/-- The closed sum of the nine payload variants implementing the Go
`ChannelRequest` interface. -/
inductive ChannelRequest where
  | pty (r : PtyRequest)
  | x11 (r : X11Request)
  | shell (r : ShellRequest)
  | exec (r : ExecRequest)
  | subsystem (r : SubsystemRequest)
  | windowChange (r : WindowChangeRequest)
  | signal (r : SignalRequest)
  | exitStatus (r : ExitStatusRequest)
  | exitSignal (r : ExitSignalRequest)
deriving DecidableEq, Repr

def PtyRequest.Length (r : PtyRequest) : Nat :=
  SSHStringLen r.Term + VarIntLen r.CharWidth + VarIntLen r.CharHeight +
    VarIntLen r.PixelWidth + VarIntLen r.PixelHeight +
    SSHStringLen r.EncodedTerminalModes

def PtyRequest.RequestTypeStr (_ : PtyRequest) : List Nat := ascii "pty-req"

def PtyRequest.Write (r : PtyRequest) (buf : List Nat) :
    Nat × List Nat × Option CodecErr :=
  if buf.length < r.Length then (0, buf, some .bufferTooSmall)
  else
    match WriteSSHString buf 0 r.Term with
    | (_, buf2, some e) => (0, buf2, some e)
    | (n, buf2, none) =>
      match goCopy buf2 n
          (discardedVarIntAttrs []
            [r.CharWidth, r.CharHeight, r.PixelWidth, r.PixelHeight]) with
      | (c, buf3) =>
        match WriteSSHString buf3 (n + c) r.EncodedTerminalModes with
        | (_, buf4, some e) => (0, buf4, some e)
        | (n2, buf4, none) => (n + c + n2, buf4, none)

def ParsePtyRequest (data : List Nat) : Except CodecErr (ChannelRequest × List Nat) :=
  match ParseSSHString data with
  | .error e => .error e
  | .ok (term, rest) =>
    match ReadVarInt rest with
    | .error e => .error e
    | .ok (charWidth, rest) =>
      match ReadVarInt rest with
      | .error e => .error e
      | .ok (charHeight, rest) =>
        match ReadVarInt rest with
        | .error e => .error e
        | .ok (pixelWidth, rest) =>
          match ReadVarInt rest with
          | .error e => .error e
          | .ok (pixelHeight, rest) =>
            match ParseSSHString rest with
            | .error e => .error e
            | .ok (encodedTerminalModes, rest) =>
              .ok (.pty ⟨term, charWidth, charHeight, pixelWidth, pixelHeight,
                    encodedTerminalModes⟩, rest)

def X11Request.Length (r : X11Request) : Nat :=
  1 + SSHStringLen r.X11AuthenticationProtocol +
    SSHStringLen r.X11AuthenticationCookie + VarIntLen r.X11ScreenNumber

def X11Request.RequestTypeStr (_ : X11Request) : List Nat := ascii "x11-req"

def X11Request.Write (r : X11Request) (buf : List Nat) :
    Nat × List Nat × Option CodecErr :=
  if buf.length < r.Length then (0, buf, some .bufferTooSmall)
  else
    match WriteSSHString (copyInto buf 0 [if r.SingleConnection then 1 else 0]) 1
        r.X11AuthenticationProtocol with
    | (_, buf2, some e) => (0, buf2, some e)
    | (n, buf2, none) =>
      match WriteSSHString buf2 (1 + n) r.X11AuthenticationCookie with
      | (_, buf3, some e) => (0, buf3, some e)
      | (n2, buf3, none) =>
        match goCopy buf3 (1 + n + n2) (AppendVarInt [] r.X11ScreenNumber) with
        | (c, buf4) => (1 + n + n2 + c, buf4, none)

def ParseX11Request (data : List Nat) : Except CodecErr (ChannelRequest × List Nat) :=
  match readBool data with
  | .error e => .error e
  | .ok (singleConnection, rest) =>
    match ParseSSHString rest with
    | .error e => .error e
    | .ok (x11AuthenticationProtocol, rest) =>
      match ParseSSHString rest with
      | .error e => .error e
      | .ok (x11AuthenticationCookie, rest) =>
        match ReadVarInt rest with
        | .error e => .error e
        | .ok (x11ScreenNumber, rest) =>
          .ok (.x11 ⟨singleConnection, x11AuthenticationProtocol,
                x11AuthenticationCookie, x11ScreenNumber⟩, rest)

def ShellRequest.Length (_ : ShellRequest) : Nat := 0

def ShellRequest.RequestTypeStr (_ : ShellRequest) : List Nat := ascii "shell"

def ShellRequest.Write (_ : ShellRequest) (buf : List Nat) :
    Nat × List Nat × Option CodecErr := (0, buf, none)

def ParseShellRequest (data : List Nat) : Except CodecErr (ChannelRequest × List Nat) :=
  .ok (.shell ⟨⟩, data)

def ExecRequest.Length (r : ExecRequest) : Nat := SSHStringLen r.Command

def ExecRequest.RequestTypeStr (_ : ExecRequest) : List Nat := ascii "exec"

def ExecRequest.Write (r : ExecRequest) (buf : List Nat) :
    Nat × List Nat × Option CodecErr := WriteSSHString buf 0 r.Command

/-- ParseExecRequest replaces any string-parse error with the literal
`bufio.ErrAdvanceTooFar` value, as the Go source does. -/
def ParseExecRequest (data : List Nat) : Except CodecErr (ChannelRequest × List Nat) :=
  match ParseSSHString data with
  | .error _ => .error .advanceTooFar
  | .ok (command, rest) => .ok (.exec ⟨command⟩, rest)

def SubsystemRequest.Length (r : SubsystemRequest) : Nat :=
  SSHStringLen r.SubsystemName

def SubsystemRequest.RequestTypeStr (_ : SubsystemRequest) : List Nat :=
  ascii "subsystem"

def SubsystemRequest.Write (r : SubsystemRequest) (buf : List Nat) :
    Nat × List Nat × Option CodecErr := WriteSSHString buf 0 r.SubsystemName

def ParseSubsystemRequest (data : List Nat) :
    Except CodecErr (ChannelRequest × List Nat) :=
  match ParseSSHString data with
  | .error _ => .error .advanceTooFar
  | .ok (subsystemName, rest) => .ok (.subsystem ⟨subsystemName⟩, rest)

def WindowChangeRequest.Length (r : WindowChangeRequest) : Nat :=
  VarIntLen r.CharWidth + VarIntLen r.CharHeight + VarIntLen r.PixelWidth +
    VarIntLen r.PixelHeight

def WindowChangeRequest.RequestTypeStr (_ : WindowChangeRequest) : List Nat :=
  ascii "window-change"

def WindowChangeRequest.Write (r : WindowChangeRequest) (buf : List Nat) :
    Nat × List Nat × Option CodecErr :=
  if buf.length < r.Length then (0, buf, some .bufferTooSmall)
  else
    match goCopy buf 0
        (discardedVarIntAttrs []
          [r.CharWidth, r.CharHeight, r.PixelWidth, r.PixelHeight]) with
    | (c, buf2) => (c, buf2, none)

def ParseWindowChangeRequest (data : List Nat) :
    Except CodecErr (ChannelRequest × List Nat) :=
  match ReadVarInt data with
  | .error e => .error e
  | .ok (charWidth, rest) =>
    match ReadVarInt rest with
    | .error e => .error e
    | .ok (charHeight, rest) =>
      match ReadVarInt rest with
      | .error e => .error e
      | .ok (pixelWidth, rest) =>
        match ReadVarInt rest with
        | .error e => .error e
        | .ok (pixelHeight, rest) =>
          .ok (.windowChange ⟨charWidth, charHeight, pixelWidth, pixelHeight⟩, rest)

def SignalRequest.Length (r : SignalRequest) : Nat :=
  SSHStringLen r.SignalNameWithoutSig

def SignalRequest.RequestTypeStr (_ : SignalRequest) : List Nat := ascii "signal"

def SignalRequest.Write (r : SignalRequest) (buf : List Nat) :
    Nat × List Nat × Option CodecErr := WriteSSHString buf 0 r.SignalNameWithoutSig

def ParseSignalRequest (data : List Nat) :
    Except CodecErr (ChannelRequest × List Nat) :=
  match ParseSSHString data with
  | .error _ => .error .advanceTooFar
  | .ok (signalNameWithoutSig, rest) => .ok (.signal ⟨signalNameWithoutSig⟩, rest)

def ExitStatusRequest.Length (r : ExitStatusRequest) : Nat :=
  VarIntLen r.exitStatus

/-- Faithful to the source: `ExitStatusRequest.RequestTypeStr` returns the
string "signal" (channel_request.go line 450), not "exit-status". -/
def ExitStatusRequest.RequestTypeStr (_ : ExitStatusRequest) : List Nat :=
  ascii "signal"

def ExitStatusRequest.Write (r : ExitStatusRequest) (buf : List Nat) :
    Nat × List Nat × Option CodecErr :=
  if buf.length < r.Length then (0, buf, some .bufferTooSmall)
  else
    match goCopy buf 0 (AppendVarInt [] r.exitStatus) with
    | (c, buf2) => (c, buf2, none)

def ParseExitStatusRequest (data : List Nat) :
    Except CodecErr (ChannelRequest × List Nat) :=
  match ReadVarInt data with
  | .error e => .error e
  | .ok (exitStatus, rest) => .ok (.exitStatus ⟨exitStatus⟩, rest)

def ExitSignalRequest.Length (r : ExitSignalRequest) : Nat :=
  SSHStringLen r.SignalNameWithoutSig + 1 + SSHStringLen r.ErrorMessageUTF8 +
    SSHStringLen r.LanguageTag

def ExitSignalRequest.RequestTypeStr (_ : ExitSignalRequest) : List Nat :=
  ascii "exit-signal"

/-- Faithful to the source: after the core-dumped byte, the Go code writes the
error message and the language tag with `util.WriteSSHString(buf, ...)` — at the
start of the buffer rather than at `buf[consumed:]` — while still advancing
`consumed` by the returned counts (channel_request.go lines 529 and 535). -/
def ExitSignalRequest.Write (r : ExitSignalRequest) (buf : List Nat) :
    Nat × List Nat × Option CodecErr :=
  if buf.length < r.Length then (0, buf, some .bufferTooSmall)
  else
    match WriteSSHString buf 0 r.SignalNameWithoutSig with
    | (_, buf2, some e) => (0, buf2, some e)
    | (n, buf2, none) =>
      match WriteSSHString (copyInto buf2 n [if r.CoreDumped then 1 else 0]) 0
          r.ErrorMessageUTF8 with
      | (_, buf3, some e) => (0, buf3, some e)
      | (n2, buf3, none) =>
        match WriteSSHString buf3 0 r.LanguageTag with
        | (_, buf4, some e) => (0, buf4, some e)
        | (n3, buf4, none) => (n + 1 + n2 + n3, buf4, none)

def ParseExitSignalRequest (data : List Nat) :
    Except CodecErr (ChannelRequest × List Nat) :=
  match ParseSSHString data with
  | .error _ => .error .advanceTooFar
  | .ok (signalNameWithoutSig, rest) =>
    match readBool rest with
    | .error e => .error e
    | .ok (coreDumped, rest) =>
      match ParseSSHString rest with
      | .error _ => .error .advanceTooFar
      | .ok (errorMessageUTF8, rest) =>
        match ParseSSHString rest with
        | .error _ => .error .advanceTooFar
        | .ok (languageTag, rest) =>
          .ok (.exitSignal ⟨signalNameWithoutSig, coreDumped, errorMessageUTF8,
                languageTag⟩, rest)

def ChannelRequest.Length : ChannelRequest → Nat
  | .pty r => r.Length
  | .x11 r => r.Length
  | .shell r => r.Length
  | .exec r => r.Length
  | .subsystem r => r.Length
  | .windowChange r => r.Length
  | .signal r => r.Length
  | .exitStatus r => r.Length
  | .exitSignal r => r.Length

def ChannelRequest.RequestTypeStr : ChannelRequest → List Nat
  | .pty r => r.RequestTypeStr
  | .x11 r => r.RequestTypeStr
  | .shell r => r.RequestTypeStr
  | .exec r => r.RequestTypeStr
  | .subsystem r => r.RequestTypeStr
  | .windowChange r => r.RequestTypeStr
  | .signal r => r.RequestTypeStr
  | .exitStatus r => r.RequestTypeStr
  | .exitSignal r => r.RequestTypeStr

def ChannelRequest.Write : ChannelRequest → List Nat → Nat × List Nat × Option CodecErr
  | .pty r, buf => r.Write buf
  | .x11 r, buf => r.Write buf
  | .shell r, buf => r.Write buf
  | .exec r, buf => r.Write buf
  | .subsystem r, buf => r.Write buf
  | .windowChange r, buf => r.Write buf
  | .signal r, buf => r.Write buf
  | .exitStatus r, buf => r.Write buf
  | .exitSignal r, buf => r.Write buf

/-- The decoder registry (channel_request.go lines 12-20). Faithful to the
source: exactly seven tags are registered; neither "exit-status" nor
"exit-signal" has an entry. -/
def ChannelRequestParseFuncs (tag : List Nat) :
    Option (List Nat → Except CodecErr (ChannelRequest × List Nat)) :=
  if tag = ascii "pty-req" then some ParsePtyRequest
  else if tag = ascii "x11-req" then some ParseX11Request
  else if tag = ascii "shell" then some ParseShellRequest
  else if tag = ascii "exec" then some ParseExecRequest
  else if tag = ascii "subsystem" then some ParseSubsystemRequest
  else if tag = ascii "window-change" then some ParseWindowChangeRequest
  else if tag = ascii "signal" then some ParseSignalRequest
  else none

structure ChannelRequestMessage where
  wantReply : Bool
  channelRequest : ChannelRequest
deriving DecidableEq, Repr

def ChannelRequestMessage.Length (m : ChannelRequestMessage) : Nat :=
  1 + SSHStringLen m.channelRequest.RequestTypeStr + 1 + m.channelRequest.Length

def ChannelRequestMessage.Write (m : ChannelRequestMessage) (buf : List Nat) :
    Nat × List Nat × Option CodecErr :=
  if buf.length < m.Length then (0, buf, some .bufferTooSmall)
  else
    match WriteSSHString (copyInto buf 0 [SSH_MSG_CHANNEL_REQUEST]) 1
        m.channelRequest.RequestTypeStr with
    | (_, buf2, some e) => (0, buf2, some e)
    | (n, buf2, none) =>
      match ChannelRequest.Write m.channelRequest
          (List.drop (1 + n + 1)
            (copyInto buf2 (1 + n) [if m.wantReply then 1 else 0])) with
      | (_, tail, some e) =>
        (0,
          List.take (1 + n + 1)
              (copyInto buf2 (1 + n) [if m.wantReply then 1 else 0]) ++ tail,
          some e)
      | (n2, tail, none) =>
        (1 + n + 1 + n2,
          List.take (1 + n + 1)
              (copyInto buf2 (1 + n) [if m.wantReply then 1 else 0]) ++ tail,
          none)

/-- ParseRequestMessage (channel_request.go lines 65-87): parses the tag string,
then the want-reply byte, then resolves the tag in the registry and delegates to
the resolved payload parser, propagating its result. -/
def ParseRequestMessage (data : List Nat) :
    Except CodecErr (ChannelRequestMessage × List Nat) :=
  match ParseSSHString data with
  | .error e => .error e
  | .ok (requestType, rest) =>
    match readBool rest with
    | .error e => .error e
    | .ok (wantReply, rest) =>
      match ChannelRequestParseFuncs requestType with
      | none => .error (.unsupportedRequestType requestType)
      | some parseFunc =>
        match parseFunc rest with
        | .error e => .error e
        | .ok (channelRequest, rest) => .ok (⟨wantReply, channelRequest⟩, rest)

theorem u32be_length (n : Nat) : (u32be n).length = 4 := rfl

theorem beVal_u32be (n : Nat) (h : n < 2 ^ 32) : beVal (u32be n) = n := by
  simp only [beVal, u32be, List.foldl]
  norm_num
  omega

theorem readBytes_append (l r : List Nat) : readBytes l.length (l ++ r) = .ok (l, r) := by
  unfold readBytes
  rw [if_pos (by simp), List.take_left, List.drop_left]

theorem parseSSHString_encode (s r : List Nat) (h : s.length < 2 ^ 32) :
    ParseSSHString (sshStringBytes s ++ r) = .ok (s, r) := by
  have h1 : sshStringBytes s ++ r = u32be s.length ++ (s ++ r) := by
    simp [sshStringBytes, List.append_assoc]
  have h2 : readBytes 4 (u32be s.length ++ (s ++ r)) = .ok (u32be s.length, s ++ r) := by
    have h3 := readBytes_append (u32be s.length) (s ++ r)
    rwa [u32be_length] at h3
  rw [ParseSSHString, h1, h2]
  simp only [beVal_u32be s.length h, readBytes_append]

/-- C1: the round-trip claim fails on the code. Writing
`WindowChangeRequest{80, 24, 640, 480}` into a buffer of its reported wire
length succeeds but emits none of the four variable-length integers (the Go
loop discards `AppendVarInt`'s result), so decoding the written buffer yields
`{0, 0, 0, 0}`, not the original value. -/
theorem C1_roundtrip_fails_windowChange :
    WindowChangeRequest.Write ⟨80, 24, 640, 480⟩ (List.replicate 7 0)
      = (0, List.replicate 7 0, none) ∧
    ParseWindowChangeRequest (List.replicate 7 0)
      = .ok (.windowChange ⟨0, 0, 0, 0⟩, [0, 0, 0]) ∧
    (⟨0, 0, 0, 0⟩ : WindowChangeRequest) ≠ ⟨80, 24, 640, 480⟩ := by
  exact ⟨by decide, by decide, by decide⟩

/-- C2: the length-exactness claim fails on the code. The envelope wrapping
`WindowChangeRequest{80, 24, 640, 480}` reports length 26, yet a successful
write into a 26-byte buffer returns only 19 consumed bytes, because the payload
write emits none of the varint bytes it accounted for. -/
theorem C2_envelope_length_mismatch :
    ChannelRequestMessage.Length ⟨true, .windowChange ⟨80, 24, 640, 480⟩⟩ = 26 ∧
    (ChannelRequestMessage.Write ⟨true, .windowChange ⟨80, 24, 640, 480⟩⟩
        (List.replicate 26 0)).2.2 = none ∧
    (ChannelRequestMessage.Write ⟨true, .windowChange ⟨80, 24, 640, 480⟩⟩
        (List.replicate 26 0)).1 = 19 ∧
    (19 : Nat) ≠ 26 := by
  exact ⟨by decide, by decide, by decide, by decide⟩

/-- C3: the claim that `ExitStatusRequest.RequestTypeStr` returns "exit-status"
fails on the code: it returns "signal", the very tag of `SignalRequest`, so the
two tags are not distinct. -/
theorem C3_exitStatus_tag_is_signal :
    ExitStatusRequest.RequestTypeStr ⟨0⟩ = ascii "signal" ∧
    SignalRequest.RequestTypeStr ⟨ascii "KILL"⟩ = ascii "signal" ∧
    ascii "signal" ≠ ascii "exit-status" := by
  exact ⟨by decide, by decide, by decide⟩

/-- C4 counterexample: resolving the tag "exit-status" fails — envelope parsing
of a well-formed exit-status message returns the unsupported-request-type
error, refuting the claim that all nine tags resolve in the registry. -/
theorem C4_counterexample_exit_status_unregistered :
    ParseRequestMessage (sshStringBytes (ascii "exit-status") ++ [1, 0])
      = .error (.unsupportedRequestType (ascii "exit-status")) := by decide

/-- C4 amended: exactly seven of the nine tags (pty-req, x11-req, shell, exec,
subsystem, window-change, signal) resolve in the decoder registry; exit-status
and exit-signal have no entry, so envelope parsing with those tags fails with
an unsupported-request-type error. -/
theorem C4_amended_seven_tags_resolve :
    ([ascii "pty-req", ascii "x11-req", ascii "shell", ascii "exec",
      ascii "subsystem", ascii "window-change", ascii "signal"].all
        (fun t => (ChannelRequestParseFuncs t).isSome)) = true ∧
    (ChannelRequestParseFuncs (ascii "exit-status")).isNone = true ∧
    (ChannelRequestParseFuncs (ascii "exit-signal")).isNone = true := by
  exact ⟨by decide, by decide, by decide⟩

/-- C5: the concrete window-change scenario fails on the code. Encoding
`WindowChangeRequest{80, 24, 640, 480}` writes zero bytes and leaves the buffer
untouched, while the four variable-length integers the claim expects would be
the seven bytes 64 80 24 66 128 65 224. -/
theorem C5_windowChange_emits_no_varints :
    WindowChangeRequest.Write ⟨80, 24, 640, 480⟩ (List.replicate 7 9)
      = (0, List.replicate 7 9, none) ∧
    AppendVarInt (AppendVarInt (AppendVarInt (AppendVarInt [] 80) 24) 640) 480
      = [64, 80, 24, 66, 128, 65, 224] := by
  exact ⟨by decide, by decide⟩

/-- C6: when the payload decoder resolved from the registry fails on the
remaining stream, `ParseRequestMessage` returns exactly that decoder's error
value, for every registered tag, want-reply byte and input stream. -/
theorem C6_payload_error_propagated (tag : List Nat) (htag : tag.length < 2 ^ 32)
    (f : List Nat → Except CodecErr (ChannelRequest × List Nat))
    (hf : ChannelRequestParseFuncs tag = some f)
    (wb : Nat) (d : List Nat) (e : CodecErr) (hfail : f d = .error e) :
    ParseRequestMessage (sshStringBytes tag ++ wb :: d) = .error e := by
  rw [ParseRequestMessage, parseSSHString_encode tag (wb :: d) htag]
  simp only [readBool, hf, hfail]

/-- Witness for C6 at the tag "exec" on the empty payload stream, whose parser
fails with the substituted `bufio.ErrAdvanceTooFar` value. -/
theorem C6_payload_error_propagated_witness :
    (ascii "exec").length < 2 ^ 32 ∧
    ChannelRequestParseFuncs (ascii "exec") = some ParseExecRequest ∧
    ParseExecRequest [] = .error .advanceTooFar ∧
    ParseRequestMessage (sshStringBytes (ascii "exec") ++ 1 :: [])
      = .error .advanceTooFar :=
  ⟨by decide, by rfl, by decide,
    C6_payload_error_propagated (ascii "exec") (by decide) ParseExecRequest
      (by rfl) 1 [] .advanceTooFar (by decide)⟩

/-- C7 counterexample: a stream carrying the unregistered tag "frobnicate" but
ending right after the tag makes `ParseRequestMessage` fail with the truncated
error while reading the want-reply byte — not with the unsupported-request-type
error the claim promises for every such stream. -/
theorem C7_counterexample_truncated_before_lookup :
    ParseRequestMessage (sshStringBytes (ascii "frobnicate"))
      = .error .truncated := by decide

/-- C7 amended: for every input stream whose request-type tag is not registered
and which still provides the want-reply byte, envelope parsing returns the
unsupported-request-type error and returns no envelope (a stream that ends
right after the tag instead fails earlier with a truncation error; no input
panics, the parser being a total function). -/
theorem C7_amended_unknown_tag (tag : List Nat) (htag : tag.length < 2 ^ 32)
    (hnone : ChannelRequestParseFuncs tag = none) (wb : Nat) (rest : List Nat) :
    ParseRequestMessage (sshStringBytes tag ++ wb :: rest)
      = .error (.unsupportedRequestType tag) := by
  rw [ParseRequestMessage, parseSSHString_encode tag (wb :: rest) htag]
  simp only [readBool, hnone]

/-- Witness for the amended C7 at the tag "frobnicate". -/
theorem C7_amended_unknown_tag_witness :
    (ascii "frobnicate").length < 2 ^ 32 ∧
    ChannelRequestParseFuncs (ascii "frobnicate") = none ∧
    ParseRequestMessage (sshStringBytes (ascii "frobnicate") ++ 1 :: [])
      = .error (.unsupportedRequestType (ascii "frobnicate")) :=
  ⟨by decide, by rfl,
    C7_amended_unknown_tag (ascii "frobnicate") (by decide) (by rfl) 1 []⟩

/-- C8: the boolean-decoding claim fails on the code. The want-reply byte is
read through `binary.Read` into a bool, which stores `b[0] != 0`: byte 1
decodes to true and byte 0 to false as claimed, but byte 2 is silently coerced
to true instead of being rejected. -/
theorem C8_nonzero_byte_coerced_to_true :
    ParseRequestMessage (sshStringBytes (ascii "shell") ++ [1])
      = .ok (⟨true, .shell ⟨⟩⟩, []) ∧
    ParseRequestMessage (sshStringBytes (ascii "shell") ++ [0])
      = .ok (⟨false, .shell ⟨⟩⟩, []) ∧
    ParseRequestMessage (sshStringBytes (ascii "shell") ++ [2])
      = .ok (⟨true, .shell ⟨⟩⟩, []) := by
  exact ⟨by decide, by decide, by decide⟩

/-- C9: encoding the envelope holding `ExecRequest{command: "ls -la"}` with
wantReply = true produces, in order, the message-type byte, the 4-byte
big-endian length 4 and the bytes "exec", the reply byte 1, the 4-byte
big-endian length 6 and the bytes "ls -la"; parsing the bytes from the tag
onward reproduces an equal `ExecRequest` with wantReply = true. -/
theorem C9_exec_concrete_scenario :
    sshStringBytes (ascii "exec") = u32be 4 ++ ascii "exec" ∧
    sshStringBytes (ascii "ls -la") = u32be 6 ++ ascii "ls -la" ∧
    ChannelRequestMessage.Write ⟨true, .exec ⟨ascii "ls -la"⟩⟩ (List.replicate 20 0)
      = (20, SSH_MSG_CHANNEL_REQUEST ::
          (sshStringBytes (ascii "exec") ++ 1 :: sshStringBytes (ascii "ls -la")),
          none) ∧
    ParseRequestMessage
        (sshStringBytes (ascii "exec") ++ 1 :: sshStringBytes (ascii "ls -la"))
      = .ok (⟨true, .exec ⟨ascii "ls -la"⟩⟩, []) := by
  exact ⟨by decide, by decide, by decide, by decide⟩

/-- C10: whenever the envelope's Write returns an error — the buffer-too-small
check, a failure writing the tag string, or an error from the delegated payload
write — the consumed count it returns is 0, never a positive partial count. -/
theorem C10_write_error_returns_zero (m : ChannelRequestMessage) (buf : List Nat)
    (h : (ChannelRequestMessage.Write m buf).2.2 ≠ none) :
    (ChannelRequestMessage.Write m buf).1 = 0 := by
  revert h
  unfold ChannelRequestMessage.Write
  split
  · intro _; rfl
  · split
    · intro _; rfl
    · split
      · intro _; rfl
      · intro h2; exact absurd rfl h2

/-- Witness for C10: writing a shell envelope into an empty buffer fails, and
the returned consumed count is 0. -/
theorem C10_write_error_returns_zero_witness :
    (ChannelRequestMessage.Write ⟨true, .shell ⟨⟩⟩ []).2.2 ≠ none ∧
    (ChannelRequestMessage.Write ⟨true, .shell ⟨⟩⟩ []).1 = 0 :=
  ⟨by decide, C10_write_error_returns_zero ⟨true, .shell ⟨⟩⟩ [] (by decide)⟩

end Ssh3
